import Mathlib

/- Shallow embedding of the instance lifecycle routes of the WhatsApp backend
   (src/instanceRoutes.js, the second router: POST /setup, GET /sync-status/:user_id,
   DELETE /disconnect/:user_id, DELETE /delete/:user_id), together with the pure
   status mapper they share.  Timestamps are opaque Nat values, nullable columns
   are Option, remote calls are oracles passed in explicitly. -/

/-- Local mirror row for one messaging instance (the `whatsapp` table). -/
structure InstanceRecord where
  id : Nat
  user_id : String
  nome_instancia : String
  numero : String
  tipo_integracao : String
  status : String
  is_active : Bool
  qr_code : Option String
  profile_name : Option String
  profile_picture_url : Option String
  connection_attempts : Option Nat
  last_connection_at : Option Nat
  atualizado_em : Nat
deriving DecidableEq

/-- JavaScript truthiness of an optional string: null/undefined and "" are falsy. -/
def jsTruthy : Option String → Bool
  | none => false
  | some s => s ≠ ""

/-- Embeds `x || null` on an optional string: a falsy value collapses to null. -/
def jsOrNull (x : Option String) : Option String :=
  if jsTruthy x then x else none

/-- Embeds `state || 'close'` (lines 380 and 564): an absent or empty raw state
defaults to the string close. -/
def rawOrClose : Option String → String
  | none => "close"
  | some s => if s = "" then "close" else s

/-- The ternary chain shared by POST /setup (lines 381-383) and GET /sync-status
(lines 583-585): open maps to connected, connecting to connecting, everything
else to disconnected. -/
def mapStatusStr (evolutionStatus : String) : String :=
  if evolutionStatus = "open" then "connected"
  else if evolutionStatus = "connecting" then "connecting"
  else "disconnected"

/-- The full state mapper as applied to the raw remote field
`data?.instance?.state`: the default to close followed by the ternary chain. -/
def mapStatus (raw : Option String) : String :=
  mapStatusStr (rawOrClose raw)

/-- Payload of a successful remote profile fetch (`data` of fetchProfile). -/
structure Profile where
  name : Option String
  profilePictureUrl : Option String
deriving DecidableEq

/-- Outcome of one remote connectionState call: a response carrying the raw
optional `data?.instance?.state`, or a thrown transport error. -/
inductive StateCall where
  | ok (state : Option String)
  | err
deriving DecidableEq

/-- Outcome of one remote fetchProfile call. -/
inductive ProfileCall where
  | ok (p : Profile)
  | err
deriving DecidableEq

/-- Outcome of one remote connect (QR) call: on success the already-extracted
value of `data?.base64 || data?.qrcode?.base64`. -/
inductive QrCall where
  | ok (code : Option String)
  | err
deriving DecidableEq

/-- Outcome of a remote logout / delete / create call, with the optional HTTP
status of the error response (`error.response?.status`) when it fails. -/
inductive RemoteCall where
  | ok
  | err (httpStatus : Option Nat)
deriving DecidableEq

/-- What one iteration of the sync polling loop observes: the connectionState
call and, consulted only on an open reading, the fetchProfile call. -/
structure Attempt where
  state : StateCall
  profile : ProfileCall
deriving DecidableEq

/-- Result of the polling loop: the final value of the `evolutionStatus`
variable, the fetched profile (set only by an early exit), the number of
connection-state polls performed and the number of 2000 ms sleeps executed. -/
structure PollOut where
  evolutionStatus : String
  profileData : Option Profile
  polls : Nat
  sleeps : Nat
deriving DecidableEq

/-- Bookkeeping for a loop iteration that fell through to the 2000 ms sleep
(line 579): one more poll happened before the recursive rest, one more sleep. -/
def stepAfter (r : PollOut) : PollOut :=
  { r with polls := r.polls + 1, sleeps := r.sleeps + 1 }

/-- An attempt ends the polling loop exactly when its connection-state call
succeeds with raw state open and its profile fetch also succeeds; an open
reading whose profile fetch throws lands in the catch, which overwrites the
status with close and lets the loop continue. -/
def attemptBreaks (a : Attempt) : Bool :=
  match a.state, a.profile with
  | StateCall.ok raw, ProfileCall.ok _ => rawOrClose raw == "open"
  | _, _ => false

/-- The polling loop of GET /sync-status (lines 557-580): `fuel` iterations
remain, the next attempt has index `i`, and `st` carries the current value of
the `evolutionStatus` variable (initially close).  Per iteration: on a thrown
connection-state call the catch sets the status to close; on an open reading
the profile is fetched and, if that succeeds, the loop breaks before sleeping;
a thrown profile fetch is caught the same way as a thrown poll; every
non-breaking iteration ends with a 2000 ms sleep. -/
def pollAux (o : Nat → Attempt) : Nat → Nat → String → PollOut
  | _, 0, st => { evolutionStatus := st, profileData := none, polls := 0, sleeps := 0 }
  | i, fuel + 1, _ =>
    match (o i).state with
    | StateCall.err => stepAfter (pollAux o (i + 1) fuel "close")
    | StateCall.ok raw =>
      if rawOrClose raw = "open" then
        match (o i).profile with
        | ProfileCall.ok p =>
          { evolutionStatus := "open", profileData := some p, polls := 1, sleeps := 0 }
        | ProfileCall.err => stepAfter (pollAux o (i + 1) fuel "close")
      else stepAfter (pollAux o (i + 1) fuel (rawOrClose raw))

/-- One full run of the polling loop: 5 attempts, status initially close. -/
def syncPoll (o : Nat → Attempt) : PollOut :=
  pollAux o 0 5 "close"

/-- The update payload built by GET /sync-status (lines 587-594) from the
record read at entry, the current time, the mapped status and the profile
fetched by the loop.  Note the profile fields are written unconditionally:
`profileData?.name || null` and `profileData?.profilePictureUrl || null`. -/
structure UpdateData where
  status : String
  atualizado_em : Nat
  connection_attempts : Nat
  last_connection_at : Option Nat
  profile_name : Option String
  profile_picture_url : Option String
deriving DecidableEq

def syncUpdateData (inst : InstanceRecord) (now : Nat) (mapped : String)
    (profileData : Option Profile) : UpdateData :=
  { status := mapped
    atualizado_em := now
    connection_attempts :=
      if mapped = "disconnected" then inst.connection_attempts.getD 0 + 1 else 0
    last_connection_at := if mapped = "connected" then some now else inst.last_connection_at
    profile_name := jsOrNull (profileData.bind Profile.name)
    profile_picture_url := jsOrNull (profileData.bind Profile.profilePictureUrl) }

/-- Effect of the sync update on the stored row, when the store accepts it. -/
def applySyncUpdate (inst : InstanceRecord) (u : UpdateData) : InstanceRecord :=
  { inst with
    status := u.status
    atualizado_em := u.atualizado_em
    connection_attempts := some u.connection_attempts
    last_connection_at := u.last_connection_at
    profile_name := u.profile_name
    profile_picture_url := u.profile_picture_url }

/-- Observable outcome of one GET /sync-status call: HTTP status, success flag,
the persisted row after the call, the update payload that was built, the poll
and sleep counts of the loop, the statusChanged flag and the QR code returned
in the response body. -/
structure SyncOut where
  http : Nat
  success : Bool
  record : InstanceRecord
  upd : UpdateData
  polls : Nat
  sleeps : Nat
  statusChanged : Bool
  qrcodeResp : Option String
deriving DecidableEq

/-- GET /sync-status/:user_id (lines 553-629) for a user whose active record is
`inst`: run the polling loop over the attempt oracle `o`, map the last observed
raw state, build the update and apply it when the store accepts it (`updOk`;
a store error here is only logged, line 603-605, and the handler proceeds),
then on a disconnected mapped status best-effort fetch a fresh QR code,
persisting it only when truthy.  The handler answers 200 success in all these
cases. -/
def syncRun (inst : InstanceRecord) (o : Nat → Attempt) (updOk : Bool)
    (qr : QrCall) (now : Nat) : SyncOut :=
  let p := syncPoll o
  let mapped := mapStatusStr p.evolutionStatus
  let u := syncUpdateData inst now mapped p.profileData
  let rec1 := if updOk then applySyncUpdate inst u else inst
  let qrFetched : Option String :=
    if mapped = "disconnected" then
      match qr with
      | QrCall.ok c => c
      | QrCall.err => none
    else none
  let rec2 :=
    if jsTruthy qrFetched then { rec1 with qr_code := qrFetched } else rec1
  { http := 200
    success := true
    record := rec2
    upd := u
    polls := p.polls
    sleeps := p.sleeps
    statusChanged := inst.status != mapped
    qrcodeResp := qrFetched }

/-- Observable outcome of a disconnect or delete call on an existing record. -/
structure SimpleOut where
  http : Nat
  success : Bool
  record : InstanceRecord
deriving DecidableEq

/-- DELETE /disconnect/:user_id (lines 664-706) for a user whose active record
is `inst`: the remote logout call is not wrapped in its own try, so a failure
propagates to the handler's catch, which answers 500 before any local write;
on success the row is updated to disconnected with profile fields and QR code
cleared, and 200 returned. -/
def disconnectRun (inst : InstanceRecord) (logout : RemoteCall) (now : Nat) : SimpleOut :=
  match logout with
  | RemoteCall.err _ => { http := 500, success := false, record := inst }
  | RemoteCall.ok =>
    { http := 200
      success := true
      record := { inst with
        status := "disconnected"
        profile_name := none
        profile_picture_url := none
        qr_code := none
        atualizado_em := now } }

/-- DELETE /delete/:user_id (lines 731-778) for a user whose active record is
`inst`: the remote delete sits in an inner try/catch that swallows every
failure (a 404 response silently, anything else with a warning log), so the
local soft delete always proceeds and the handler answers 200 success. -/
def deleteRun (inst : InstanceRecord) (remoteDelete : RemoteCall) (now : Nat) : SimpleOut :=
  let localUpdate : InstanceRecord :=
    { inst with is_active := false, status := "disconnected", atualizado_em := now }
  match remoteDelete with
  | RemoteCall.ok => { http := 200, success := true, record := localUpdate }
  | RemoteCall.err _ => { http := 200, success := true, record := localUpdate }

/-- Observable outcome of the POST /setup creation path. -/
structure CreateOut where
  http : Nat
  success : Bool
  inserted : Option InstanceRecord
  qrcodeResp : Option String
deriving DecidableEq

/-- The row handed to the insert on the POST /setup creation path
(lines 447-459): disconnected, active, one connection attempt, no QR yet. -/
def newInstanceRow (uid phone : String) (suffix newId now : Nat) : InstanceRecord :=
  { id := newId
    user_id := uid
    nome_instancia := phone ++ "_" ++ toString suffix
    numero := phone
    tipo_integracao := "WHATSAPP-BAILEYS"
    status := "disconnected"
    is_active := true
    qr_code := none
    profile_name := none
    profile_picture_url := none
    connection_attempts := some 1
    last_connection_at := none
    atualizado_em := now }

/-- POST /setup creation path (lines 425-507), reached when the user is known,
has a phone number and has no active record.  `createRes` is the remote
instance-create call (not guarded by an inner try: a failure reaches the outer
catch, 500, before any insert); `insertOk` says whether the store accepts the
insert (an insert error is re-thrown, 500); `qr` is the best-effort initial QR
fetch, persisted only when truthy, whose failure is only logged.  The success
answer is 201. -/
def setupCreate (uid phone : String) (suffix newId : Nat) (createRes : RemoteCall)
    (insertOk : Bool) (qr : QrCall) (now : Nat) : CreateOut :=
  match createRes with
  | RemoteCall.err _ => { http := 500, success := false, inserted := none, qrcodeResp := none }
  | RemoteCall.ok =>
    if insertOk then
      let row := newInstanceRow uid phone suffix newId now
      match qr with
      | QrCall.ok c =>
        if jsTruthy c then
          { http := 201, success := true, inserted := some { row with qr_code := c },
            qrcodeResp := c }
        else
          { http := 201, success := true, inserted := some row, qrcodeResp := c }
      | QrCall.err =>
        { http := 201, success := true, inserted := some row, qrcodeResp := none }
    else
      { http := 500, success := false, inserted := none, qrcodeResp := none }

/-- Observable outcome of the POST /setup idempotent path. -/
structure ExistingOut where
  http : Nat
  success : Bool
  record : InstanceRecord
  qrcodeResp : Option String
deriving DecidableEq

/-- POST /setup idempotent path (lines 371-423), reached when an active record
`inst` exists.  `statusRes` is the remote connection-state call and `qr` the QR
fetch attempted only when the mapped status is disconnected; both run inside
one try whose catch returns a degraded 200 success with a null QR code.  The
status update write (lines 385-391) is not error-checked.  The fetched QR code
only travels in the response body: no qr_code write occurs on this path. -/
def setupExisting (inst : InstanceRecord) (statusRes : StateCall) (qr : QrCall)
    (now : Nat) : ExistingOut :=
  match statusRes with
  | StateCall.err => { http := 200, success := true, record := inst, qrcodeResp := none }
  | StateCall.ok raw =>
    let mapped := mapStatus raw
    let inst' := { inst with status := mapped, atualizado_em := now }
    if mapped = "disconnected" then
      match qr with
      | QrCall.err => { http := 200, success := true, record := inst', qrcodeResp := none }
      | QrCall.ok c => { http := 200, success := true, record := inst', qrcodeResp := c }
    else
      { http := 200, success := true, record := inst', qrcodeResp := none }

/-- A breaking attempt makes the loop return at once: profile fetched, one
poll, no sleep. -/
theorem pollAux_break (o : Nat → Attempt) (i fuel : Nat) (st : String)
    (h : attemptBreaks (o i) = true) :
    ∃ p, pollAux o i (fuel + 1) st =
      { evolutionStatus := "open", profileData := some p, polls := 1, sleeps := 0 } := by
  cases hs : (o i).state with
  | err => exact absurd h (by simp [attemptBreaks, hs])
  | ok raw =>
    cases hp : (o i).profile with
    | err => exact absurd h (by simp [attemptBreaks, hs, hp])
    | ok p =>
      have ho : rawOrClose raw = "open" := by simpa [attemptBreaks, hs, hp] using h
      exact ⟨p, by simp [pollAux, hs, hp, ho]⟩

/-- A non-breaking attempt adds one poll and one sleep around the rest of the
loop, whose carried status is the reading of this attempt. -/
theorem pollAux_nobreak (o : Nat → Attempt) (i fuel : Nat) (st : String)
    (h : attemptBreaks (o i) = false) :
    ∃ st2, pollAux o i (fuel + 1) st = stepAfter (pollAux o (i + 1) fuel st2) := by
  cases hs : (o i).state with
  | err => exact ⟨"close", by simp [pollAux, hs]⟩
  | ok raw =>
    by_cases ho : rawOrClose raw = "open"
    · cases hp : (o i).profile with
      | ok p => exact absurd h (by simp [attemptBreaks, hs, hp, ho])
      | err => exact ⟨"close", by simp [pollAux, hs, hp, ho]⟩
    · exact ⟨rawOrClose raw, by simp [pollAux, hs, ho]⟩

/-- The loop never polls more often than it has fuel, and sleeps at most once
per poll. -/
theorem pollAux_bounds (o : Nat → Attempt) :
    ∀ fuel i st, (pollAux o i fuel st).polls ≤ fuel ∧
      (pollAux o i fuel st).sleeps ≤ (pollAux o i fuel st).polls := by
  intro fuel
  induction fuel with
  | zero => intro i st; simp [pollAux]
  | succ n ih =>
    intro i st
    by_cases hb : attemptBreaks (o i) = true
    · obtain ⟨p, hp⟩ := pollAux_break o i n st hb
      rw [hp]; simp
    · obtain ⟨st2, hst⟩ := pollAux_nobreak o i n st (by simpa using hb)
      rw [hst]
      have h2 := ih (i + 1) st2
      simp only [stepAfter]
      omega

/-- When attempt `i + k` breaks and no earlier attempt does, the loop performs
exactly `k + 1` polls. -/
theorem pollAux_stops (o : Nat → Attempt) :
    ∀ fuel k i st, k < fuel → attemptBreaks (o (i + k)) = true →
      (∀ j, j < k → attemptBreaks (o (i + j)) = false) →
      (pollAux o i fuel st).polls = k + 1 := by
  intro fuel
  induction fuel with
  | zero => intro k i st hk _ _; exact absurd hk (Nat.not_lt_zero k)
  | succ n ih =>
    intro k i st hk hb hf
    cases k with
    | zero =>
      obtain ⟨p, hp⟩ := pollAux_break o i n st (by simpa using hb)
      rw [hp]
    | succ m =>
      have h0 : attemptBreaks (o i) = false := by simpa using hf 0 (Nat.succ_pos m)
      obtain ⟨st2, hst⟩ := pollAux_nobreak o i n st h0
      rw [hst]
      have hb2 : attemptBreaks (o (i + 1 + m)) = true := by
        rw [show i + 1 + m = i + (m + 1) by omega]; exact hb
      have hf2 : ∀ j, j < m → attemptBreaks (o (i + 1 + j)) = false := by
        intro j hj
        rw [show i + 1 + j = i + (j + 1) by omega]
        exact hf (j + 1) (by omega)
      have hrec := ih m (i + 1) st2 (by omega) hb2 hf2
      simp [stepAfter, hrec]

/-- The loop carries a profile out only together with a final open status. -/
theorem pollAux_profile (o : Nat → Attempt) :
    ∀ fuel i st, (pollAux o i fuel st).profileData = none ∨
      (pollAux o i fuel st).evolutionStatus = "open" := by
  intro fuel
  induction fuel with
  | zero => intro i st; left; rfl
  | succ n ih =>
    intro i st
    by_cases hb : attemptBreaks (o i) = true
    · obtain ⟨p, hp⟩ := pollAux_break o i n st hb
      rw [hp]; right; rfl
    · obtain ⟨st2, hst⟩ := pollAux_nobreak o i n st (by simpa using hb)
      rw [hst]
      rcases ih (i + 1) st2 with h | h
      · left; simpa [stepAfter] using h
      · right; simpa [stepAfter] using h

/-- When every attempt in reach of the fuel throws on the connection-state
call, the loop runs dry: status close, no profile, a poll and a sleep per unit
of fuel. -/
theorem pollAux_all_err (o : Nat → Attempt) :
    ∀ fuel i st, (∀ k, k < fuel → (o (i + k)).state = StateCall.err) →
      pollAux o i fuel st =
        { evolutionStatus := if fuel = 0 then st else "close",
          profileData := none, polls := fuel, sleeps := fuel } := by
  intro fuel
  induction fuel with
  | zero => intro i st _; simp [pollAux]
  | succ n ih =>
    intro i st h
    have hs : (o i).state = StateCall.err := by simpa using h 0 (Nat.succ_pos n)
    have hrec := ih (i + 1) "close" (by
      intro k hk
      rw [show i + 1 + k = i + (k + 1) by omega]
      exact h (k + 1) (by omega))
    simp [pollAux, hs, hrec, stepAfter]

/-- The mapped status is connected exactly for the raw status open. -/
theorem mapStatusStr_connected (E : String) :
    mapStatusStr E = "connected" ↔ E = "open" := by
  unfold mapStatusStr
  by_cases h1 : E = "open"
  · simp [h1]
  · by_cases h2 : E = "connecting" <;> simp [h1, h2]

/-- A concrete active record used to evaluate the operations. -/
def inst0 : InstanceRecord :=
  { id := 7
    user_id := "u1"
    nome_instancia := "5511999990000_1234"
    numero := "5511999990000"
    tipo_integracao := "WHATSAPP-BAILEYS"
    status := "connected"
    is_active := true
    qr_code := none
    profile_name := some "Ana"
    profile_picture_url := some "pic-url"
    connection_attempts := some 0
    last_connection_at := some 10
    atualizado_em := 10 }

/-- Attempt trace in which every connection-state poll throws. -/
def allErrOracle : Nat → Attempt := fun _ =>
  { state := StateCall.err, profile := ProfileCall.err }

/-- Attempt trace in which the first poll reads open but the profile fetch
throws, and every later poll reads close. -/
def c1Oracle : Nat → Attempt := fun i =>
  if i = 0 then { state := StateCall.ok (some "open"), profile := ProfileCall.err }
  else { state := StateCall.ok (some "close"),
         profile := ProfileCall.ok { name := none, profilePictureUrl := none } }

/-- Attempt trace in which the third attempt reads open with a good profile
fetch and the earlier attempts throw. -/
def c1wOracle : Nat → Attempt := fun i =>
  if i = 2 then { state := StateCall.ok (some "open"),
                  profile := ProfileCall.ok { name := some "Ana", profilePictureUrl := none } }
  else { state := StateCall.err, profile := ProfileCall.err }

/-- Attempt trace in which every poll reads connecting. -/
def connOracle : Nat → Attempt := fun _ =>
  { state := StateCall.ok (some "connecting"), profile := ProfileCall.err }

/-- A first test of the mapper on the spec's own table. -/
example : mapStatus (some "open") = "connected" := by decide

/-- C1 counterexample: on a trace whose very first poll observes raw state open
(but whose profile fetch then throws), the loop does not stop at that first
observation: all 5 polls happen, not 1. -/
theorem c1_counterexample :
    (c1Oracle 0).state = StateCall.ok (some "open") ∧
    (syncPoll c1Oracle).polls = 5 ∧ ¬(syncPoll c1Oracle).polls = 1 := by decide

/-- C1 (amended): per invocation the loop performs at most 5 connection-state
polls with at most one 2-time-unit sleep per poll, and it stops at the first
attempt whose raw state is open AND whose profile fetch succeeds; an open
reading whose profile fetch fails is caught, treated as close, and polling
continues. -/
theorem c1_amended (o : Nat → Attempt) :
    (syncPoll o).polls ≤ 5 ∧ (syncPoll o).sleeps ≤ (syncPoll o).polls ∧
    ∀ k, k < 5 → attemptBreaks (o k) = true →
      (∀ j, j < k → attemptBreaks (o j) = false) →
      (syncPoll o).polls = k + 1 := by
  refine ⟨(pollAux_bounds o 5 0 "close").1, (pollAux_bounds o 5 0 "close").2, ?_⟩
  intro k hk hb hf
  refine pollAux_stops o 5 k 0 "close" hk (by simpa using hb) ?_
  intro j hj
  simpa using hf j hj

/-- C1 witness: on a trace breaking at the third attempt only, the loop stops
after exactly 3 polls. -/
theorem c1_amended_witness : (syncPoll c1wOracle).polls = 2 + 1 :=
  (c1_amended c1wOracle).2.2 2 (by decide) (by decide) (by decide)

/-- C6: the status mapper is total (a Lean function on every optional raw
state) and maps open to connected, connecting to connecting, and anything else
-- an absent state and close included -- to disconnected. -/
theorem c6_mapStatus_total :
    mapStatus (some "open") = "connected" ∧
    mapStatus (some "connecting") = "connecting" ∧
    mapStatus none = "disconnected" ∧
    mapStatus (some "close") = "disconnected" ∧
    ∀ s : String, s ≠ "open" → s ≠ "connecting" → mapStatus (some s) = "disconnected" := by
  refine ⟨by decide, by decide, by decide, by decide, ?_⟩
  intro s h1 h2
  by_cases he : s = ""
  · subst he; decide
  · simp [mapStatus, rawOrClose, mapStatusStr, he, h1, h2]

/-- C6 witness: the mapper at a concrete raw state outside the two known ones. -/
theorem c6_mapStatus_total_witness : mapStatus (some "banana") = "disconnected" :=
  c6_mapStatus_total.2.2.2.2 "banana" (by decide) (by decide)

/-- C2 counterexample: a Sync whose polls all fail ends disconnected, and the
persisted row's profile_name is overwritten with null, not left at its
previous value Ana. -/
theorem c2_counterexample :
    inst0.profile_name = some "Ana" ∧
    (syncRun inst0 allErrOracle true QrCall.err 20).upd.status = "disconnected" ∧
    ¬(syncRun inst0 allErrOracle true QrCall.err 20).record.profile_name = some "Ana" ∧
    (syncRun inst0 allErrOracle true QrCall.err 20).record.profile_name = none := by decide

/-- C2 (amended): the sync update payload overwrites the profile fields on
every invocation; whenever the final mapped status is not connected they are
set to null (clearing any previous values), and only a connected result
carries fetched profile data. -/
theorem c2_amended (inst : InstanceRecord) (o : Nat → Attempt) (updOk : Bool)
    (qr : QrCall) (now : Nat)
    (h : (syncRun inst o updOk qr now).upd.status ≠ "connected") :
    (syncRun inst o updOk qr now).upd.profile_name = none ∧
    (syncRun inst o updOk qr now).upd.profile_picture_url = none := by
  have hE : mapStatusStr (syncPoll o).evolutionStatus ≠ "connected" := h
  have hopen : ¬(syncPoll o).evolutionStatus = "open" := fun hc =>
    hE ((mapStatusStr_connected _).mpr hc)
  have hnone : (syncPoll o).profileData = none := by
    rcases pollAux_profile o 5 0 "close" with hp | hp
    · exact hp
    · exact absurd hp hopen
  constructor
  · show jsOrNull ((syncPoll o).profileData.bind Profile.name) = none
    rw [hnone]; rfl
  · show jsOrNull ((syncPoll o).profileData.bind Profile.profilePictureUrl) = none
    rw [hnone]; rfl

/-- C2 witness: the amended statement evaluated on a concrete failing sync. -/
theorem c2_amended_witness :
    (syncRun inst0 allErrOracle true QrCall.err 20).upd.profile_name = none ∧
    (syncRun inst0 allErrOracle true QrCall.err 20).upd.profile_picture_url = none :=
  c2_amended inst0 allErrOracle true QrCall.err 20 (by decide)

/-- C3: Disconnect with a failing remote logout answers 500 and leaves every
field of the local record untouched; with a succeeding logout it answers 200
and persists disconnected with profile fields and QR code cleared. -/
theorem c3_disconnect (inst : InstanceRecord) (st : Option Nat) (now : Nat) :
    (disconnectRun inst (RemoteCall.err st) now).http = 500 ∧
    (disconnectRun inst (RemoteCall.err st) now).success = false ∧
    (disconnectRun inst (RemoteCall.err st) now).record = inst ∧
    (disconnectRun inst RemoteCall.ok now).http = 200 ∧
    (disconnectRun inst RemoteCall.ok now).record =
      { inst with
          status := "disconnected"
          profile_name := none
          profile_picture_url := none
          qr_code := none
          atualizado_em := now } :=
  ⟨rfl, rfl, rfl, rfl, rfl⟩

/-- C4: Delete persists the local soft delete and reports 200 success for every
outcome of the remote delete call, a 404 not-found response and any other
failure included. -/
theorem c4_delete (inst : InstanceRecord) (remote : RemoteCall) (now : Nat) :
    (deleteRun inst remote now).http = 200 ∧
    (deleteRun inst remote now).success = true ∧
    (deleteRun inst remote now).record.is_active = false ∧
    (deleteRun inst remote now).record.status = "disconnected" := by
  cases remote <;> exact ⟨rfl, rfl, rfl, rfl⟩

/-- Unfolding of the creation path once the remote create and the insert have
succeeded: 201, with the QR code persisted exactly when truthy. -/
theorem setupCreate_ok (uid ph : String) (sfx nid : Nat) (c : Option String) (now : Nat) :
    setupCreate uid ph sfx nid RemoteCall.ok true (QrCall.ok c) now =
      if jsTruthy c then
        { http := 201, success := true,
          inserted := some { newInstanceRow uid ph sfx nid now with qr_code := c },
          qrcodeResp := c }
      else
        { http := 201, success := true,
          inserted := some (newInstanceRow uid ph sfx nid now), qrcodeResp := c } := rfl

/-- C5: on the Setup creation path a failing remote create is fatal (500,
nothing inserted); a succeeding one inserts a fresh row with status
disconnected and connection_attempts 1 and answers 201. -/
theorem c5_setup_create (uid ph : String) (sfx nid : Nat) (st : Option Nat)
    (qr : QrCall) (now : Nat) :
    ((setupCreate uid ph sfx nid (RemoteCall.err st) true qr now).http = 500 ∧
     (setupCreate uid ph sfx nid (RemoteCall.err st) true qr now).success = false ∧
     (setupCreate uid ph sfx nid (RemoteCall.err st) true qr now).inserted = none) ∧
    ((setupCreate uid ph sfx nid RemoteCall.ok true qr now).http = 201 ∧
     (setupCreate uid ph sfx nid RemoteCall.ok true qr now).success = true ∧
     ∃ row, (setupCreate uid ph sfx nid RemoteCall.ok true qr now).inserted = some row ∧
       row.status = "disconnected" ∧ row.connection_attempts = some 1) := by
  refine ⟨⟨rfl, rfl, rfl⟩, ?_⟩
  cases qr with
  | err => exact ⟨rfl, rfl, newInstanceRow uid ph sfx nid now, rfl, rfl, rfl⟩
  | ok c =>
    rw [setupCreate_ok]
    by_cases hc : jsTruthy c = true
    · rw [if_pos hc]
      exact ⟨rfl, rfl, { newInstanceRow uid ph sfx nid now with qr_code := c }, rfl, rfl, rfl⟩
    · rw [if_neg hc]
      exact ⟨rfl, rfl, newInstanceRow uid ph sfx nid now, rfl, rfl, rfl⟩

/-- C7 counterexample: on the idempotent Setup path with a disconnected mapped
status, the freshly fetched pairing code ABC123 is returned in the response but
the record's qr_code column is not written: it stays null. -/
theorem c7_counterexample :
    (setupExisting inst0 (StateCall.ok (some "close")) (QrCall.ok (some "ABC123")) 30).qrcodeResp
      = some "ABC123" ∧
    inst0.qr_code = none ∧
    (setupExisting inst0 (StateCall.ok (some "close")) (QrCall.ok (some "ABC123")) 30).record.qr_code
      = none := by decide

/-- C7 (amended): on the idempotent Setup path with mapped status disconnected,
the fresh pairing code is fetched and returned in the response body but NOT
persisted (the record's qr_code is untouched on this path); a failure of the
fetch is swallowed and the 200 success response still returned with a null
code and the record's qr_code equally untouched. -/
theorem c7_amended (inst : InstanceRecord) (raw : Option String) (c : Option String)
    (now : Nat) (h : mapStatus raw = "disconnected") :
    ((setupExisting inst (StateCall.ok raw) (QrCall.ok c) now).http = 200 ∧
     (setupExisting inst (StateCall.ok raw) (QrCall.ok c) now).success = true ∧
     (setupExisting inst (StateCall.ok raw) (QrCall.ok c) now).qrcodeResp = c ∧
     (setupExisting inst (StateCall.ok raw) (QrCall.ok c) now).record.qr_code = inst.qr_code) ∧
    ((setupExisting inst (StateCall.ok raw) QrCall.err now).http = 200 ∧
     (setupExisting inst (StateCall.ok raw) QrCall.err now).success = true ∧
     (setupExisting inst (StateCall.ok raw) QrCall.err now).qrcodeResp = none ∧
     (setupExisting inst (StateCall.ok raw) QrCall.err now).record.qr_code = inst.qr_code) := by
  simp [setupExisting, h]

/-- C7 witness: the amended statement evaluated at a concrete disconnected
resync. -/
theorem c7_amended_witness :
    (setupExisting inst0 (StateCall.ok (some "close")) (QrCall.ok (some "QQ")) 30).record.qr_code
      = inst0.qr_code ∧
    (setupExisting inst0 (StateCall.ok (some "close")) QrCall.err 30).http = 200 :=
  ⟨(c7_amended inst0 (some "close") (some "QQ") 30 (by decide)).1.2.2.2,
   (c7_amended inst0 (some "close") (some "QQ") 30 (by decide)).2.1⟩

/-- C8: a Sync whose five connection-state polls all fail performs exactly 5
polls (the loop is bounded and completes), persists status disconnected, and
increments connection_attempts by exactly 1. -/
theorem c8_sync_all_errors (inst : InstanceRecord) (o : Nat → Attempt) (qr : QrCall)
    (now n : Nat) (ho : ∀ i, i < 5 → (o i).state = StateCall.err)
    (hn : inst.connection_attempts = some n) :
    (syncRun inst o true qr now).polls = 5 ∧
    (syncRun inst o true qr now).record.status = "disconnected" ∧
    (syncRun inst o true qr now).record.connection_attempts = some (n + 1) := by
  have hp : syncPoll o =
      { evolutionStatus := "close", profileData := none, polls := 5, sleeps := 5 } := by
    have h5 := pollAux_all_err o 5 0 "close" (by intro k hk; simpa using ho k hk)
    simpa [syncPoll] using h5
  cases qr with
  | err => simp [syncRun, hp, syncUpdateData, applySyncUpdate, mapStatusStr, hn, jsTruthy]
  | ok c =>
    by_cases hc : jsTruthy c = true
    · simp [syncRun, hp, syncUpdateData, applySyncUpdate, mapStatusStr, hn, hc]
    · simp [syncRun, hp, syncUpdateData, applySyncUpdate, mapStatusStr, hn, hc]

/-- C8 witness: the statement evaluated on a concrete record and the all-error
trace. -/
theorem c8_sync_all_errors_witness :
    (syncRun inst0 allErrOracle true QrCall.err 20).polls = 5 ∧
    (syncRun inst0 allErrOracle true QrCall.err 20).record.status = "disconnected" ∧
    (syncRun inst0 allErrOracle true QrCall.err 20).record.connection_attempts = some (0 + 1) :=
  c8_sync_all_errors inst0 allErrOracle QrCall.err 20 0 (by decide) (by decide)

/-- C9 counterexample: a Sync whose status-update write is rejected by the
store still answers 200 success, not 500. -/
theorem c9_counterexample :
    (syncRun inst0 allErrOracle false QrCall.err 20).http = 200 ∧
    (syncRun inst0 allErrOracle false QrCall.err 20).success = true ∧
    ¬(syncRun inst0 allErrOracle false QrCall.err 20).http = 500 := by decide

/-- C9 (amended): store failures map to 500 on the Setup paths (the insert
failure shown here is re-thrown), but Sync never turns its status-update write
failure into an error: the handler logs it and answers 200 success whatever
the store did. -/
theorem c9_amended (uid ph : String) (sfx nid : Nat) (qr qr2 : QrCall) (now now2 : Nat)
    (inst : InstanceRecord) (o : Nat → Attempt) :
    ((setupCreate uid ph sfx nid RemoteCall.ok false qr now).http = 500 ∧
     (setupCreate uid ph sfx nid RemoteCall.ok false qr now).success = false ∧
     (setupCreate uid ph sfx nid RemoteCall.ok false qr now).inserted = none) ∧
    ((syncRun inst o false qr2 now2).http = 200 ∧
     (syncRun inst o false qr2 now2).success = true) :=
  ⟨⟨rfl, rfl, rfl⟩, rfl, rfl⟩

/-- C10: a Sync whose final mapped status is connecting resets the persisted
connection_attempts counter to 0; the counter is incremented only in the
disconnected case. -/
theorem c10_connecting_resets (inst : InstanceRecord) (o : Nat → Attempt) (updOk : Bool)
    (qr : QrCall) (now : Nat)
    (h : (syncRun inst o updOk qr now).upd.status = "connecting") :
    (syncRun inst o updOk qr now).upd.connection_attempts = 0 := by
  have hE : mapStatusStr (syncPoll o).evolutionStatus = "connecting" := h
  show (if mapStatusStr (syncPoll o).evolutionStatus = "disconnected"
        then inst.connection_attempts.getD 0 + 1 else 0) = 0
  rw [hE]
  simp

/-- C10 witness: a sync observing connecting on every poll resets the counter. -/
theorem c10_connecting_resets_witness :
    (syncRun inst0 connOracle true QrCall.err 20).upd.connection_attempts = 0 :=
  c10_connecting_resets inst0 connOracle true QrCall.err 20 (by decide)
